import Mathlib

/-!
Verification of the quantization-table quality estimator in `app.py`
(`get_jpeg_quality_from_qtable` and `classify_quality`).

The embedding sits at the decode boundary: `Image.open` either fails to
identify the input, succeeds and yields a format tag plus (for JPEG) the
quantization-table dictionary, or the input value is of an unsupported
Python type.  Quantization tables are ordered sequences of integers; the
floating-point arithmetic of the Python heuristic is modelled exactly over
ℚ, and Python's `int()` conversion (truncation toward zero) is modelled by
`pyint`.
-/

/-- The fixed reference luminance table `STANDARD_LUMINANCE_TABLE` from
`app.py` (64 entries, row-major). -/
def STANDARD_LUMINANCE_TABLE : List ℤ :=
  [16, 11, 10, 16, 24, 40, 51, 61,
   12, 12, 14, 19, 26, 58, 60, 55,
   14, 13, 16, 24, 40, 57, 69, 56,
   14, 17, 22, 29, 51, 87, 80, 62,
   18, 22, 37, 56, 68, 109, 103, 77,
   24, 35, 55, 64, 81, 104, 113, 92,
   49, 64, 78, 87, 103, 121, 120, 101,
   72, 92, 95, 98, 112, 100, 103, 99]

/-- Format tag of a successfully decoded image, as read from `img.format`:
the code only distinguishes `'JPEG'`, `'PNG'` and everything else. -/
inductive ImgFormat
  | jpeg
  | png
  | other
deriving DecidableEq, Repr

/-- Input to `get_jpeg_quality_from_qtable`, seen at the decode boundary:
* `invalidType` — the argument was neither `str` nor `bytes`, so the code
  raises `ValueError` internally;
* `unreadable` — `Image.open` raises `UnidentifiedImageError`;
* `decoded fmt qtables` — the image decoded with format `fmt`; for JPEG,
  `qtables` is the `img.quantization` dictionary (table index ↦ entries),
  modelled as an association list with distinct keys. -/
inductive EstimatorInput
  | invalidType
  | unreadable
  | decoded (fmt : ImgFormat) (qtables : List (Nat × List ℤ))
deriving Repr

/-- Dictionary lookup `q_tables.get(k)`. -/
def lookupTable (k : Nat) : List (Nat × List ℤ) → Option (List ℤ)
  | [] => none
  | (k', t) :: rest => if k' = k then some t else lookupTable k rest

/-- Python `int()` on a real value: truncation toward zero. -/
def pyint (q : ℚ) : ℤ := if 0 ≤ q then ⌊q⌋ else ⌈q⌉

/-- `np.mean` of an integer sequence, as an exact rational. -/
def listMean (t : List ℤ) : ℚ := (t.sum : ℚ) / (t.length : ℚ)

/-- Segment `avg_q_val <= 10`: `quality = 95 - (avg_q_val - 1)` (app.py line 110). -/
def seg1 (x : ℚ) : ℚ := 95 - (x - 1)

/-- Segment `avg_q_val <= 20`: `quality = 90 - (avg_q_val - 10) * 1.5` (line 111). -/
def seg2 (x : ℚ) : ℚ := 90 - (x - 10) * (3 / 2)

/-- Segment `avg_q_val <= 50`: `quality = 75 - (avg_q_val - 20) * 1.0` (line 112). -/
def seg3 (x : ℚ) : ℚ := 75 - (x - 20) * 1

/-- Segment `avg_q_val <= 100`: `quality = 45 - (avg_q_val - 50) * 0.6` (line 113). -/
def seg4 (x : ℚ) : ℚ := 45 - (x - 50) * (3 / 5)

/-- Segment `else`: `quality = 15 - (avg_q_val - 100) * 0.1` (line 114). -/
def seg5 (x : ℚ) : ℚ := 15 - (x - 100) * (1 / 10)

/-- The five-segment heuristic map from the mean quantizer value to the raw
(unclamped) quality, lines 110–114 of `app.py`. -/
def qualityFromAvg (x : ℚ) : ℚ :=
  if x ≤ 10 then seg1 x
  else if x ≤ 20 then seg2 x
  else if x ≤ 50 then seg3 x
  else if x ≤ 100 then seg4 x
  else seg5 x

/-- Numpy boolean selection `luminance_q_table_flat[non_zero_std_indices]`:
keep the entries of `t` at the positions where `s` is nonzero. -/
def selectNonzero (s t : List ℤ) : List ℤ :=
  (List.zip s t).filterMap fun p => if p.1 ≠ 0 then some p.2 else none

/-- `get_jpeg_quality_from_qtable` from `app.py`, lines 24–127.  The whole
body runs inside `try`, and every branch returns an integer:
* unsupported argument type → the internal `ValueError` is caught at
  line 122 → `25`;
* `UnidentifiedImageError` → caught at line 119 → `20`;
* decoded non-JPEG → `98` for PNG, else `50`;
* JPEG with an empty (falsy) `img.quantization` dict → `50`;
* JPEG whose dict has no key 0: `np.array(q_tables.get(0))` wraps `None`
  into a 0-d object array, so the `is None` test at line 53 is `False` and
  lines 54–60 are dead; the flattened array `[None]` has length 1 ≠ 64, the
  size-mismatch branch runs `np.mean([None])` which raises `TypeError`,
  caught by the generic handler at line 125 → `30`;
* the all-zero check on the reference table (lines 72–74) → `30`
  (never taken: the table has no zero entry);
* size mismatch with an empty table: `np.mean([])` is `NaN`, and
  `int(110 - NaN/1.5)` raises `ValueError`, caught at line 122 → `25`;
* size mismatch otherwise → `max(1, min(100, int(110 - mean/1.5)))`;
* standard path → `int(max(1, min(100, qualityFromAvg avg)))` where `avg`
  is the mean of the entries selected at nonzero reference positions. -/
def get_jpeg_quality_from_qtable : EstimatorInput → ℤ
  | .invalidType => 25
  | .unreadable => 20
  | .decoded fmt qtables =>
    if fmt ≠ .jpeg then
      if fmt = .png then 98 else 50
    else if qtables = [] then 50
    else
      match lookupTable 0 qtables with
      | none => 30
      | some t =>
        if STANDARD_LUMINANCE_TABLE.all (· = 0) then 30
        else if t.length ≠ STANDARD_LUMINANCE_TABLE.length then
          if t.length = 0 then 25
          else max 1 (min 100 (pyint (110 - listMean t / (3 / 2))))
        else
          pyint (max 1 (min 100
            (qualityFromAvg (listMean (selectNonzero STANDARD_LUMINANCE_TABLE t)))))

/-- `classify_quality` from `app.py`, lines 132–140. -/
def classify_quality (score : ℤ) : String :=
  if score ≥ 90 then "High Quality"
  else if score ≥ 80 then "Medium Quality"
  else if score ≥ 70 then "Low Quality"
  else "Very Low Quality"

/-- The quality map exactly as claim C3 of the specification words it: the
five-segment curve, "rounded to an integer and clamped to [1,100]".  Kept
separate from the source embedding so the two can be compared. -/
def roundedPiecewiseMap (avgQ : ℚ) : ℤ :=
  max 1 (min 100 (round (qualityFromAvg avgQ)))

/-- The amended quality map: the five-segment curve clamped to [1,100] and
then truncated by Python's `int()` (truncation toward zero; on the clamped
range this is the floor). -/
def truncatedPiecewiseMap (avgQ : ℚ) : ℤ :=
  pyint (max 1 (min 100 (qualityFromAvg avgQ)))

/-- The size-mismatch fallback exactly as claim C4 of the specification
words it: `clamp(round(110 − mean/1.5), 1, 100)`. -/
def roundedFallbackMap (mean : ℚ) : ℤ :=
  max 1 (min 100 (round ((110 : ℚ) - mean / (3 / 2))))

/-- The classifier exactly as claim C8 words it, with explicit two-sided
interval conditions. -/
def classifyByIntervals (score : ℤ) : String :=
  if 90 ≤ score then "High Quality"
  else if 80 ≤ score ∧ score < 90 then "Medium Quality"
  else if 70 ≤ score ∧ score < 80 then "Low Quality"
  else "Very Low Quality"

/-! ### Basic facts about the reference table and the arithmetic helpers -/

theorem stdTable_not_all_zero : STANDARD_LUMINANCE_TABLE.all (· = 0) = false := by decide

theorem stdTable_length : STANDARD_LUMINANCE_TABLE.length = 64 := by decide

theorem stdTable_nonzero : ∀ x ∈ STANDARD_LUMINANCE_TABLE, x ≠ 0 := by decide

theorem selectNonzero_id (s t : List ℤ) (hs : ∀ x ∈ s, x ≠ 0) (h : s.length = t.length) :
    selectNonzero s t = t := by
  induction s generalizing t with
  | nil => cases t with
    | nil => rfl
    | cons b bs => simp at h
  | cons a as ih =>
    cases t with
    | nil => simp at h
    | cons b bs =>
      have ha : a ≠ 0 := hs a (by simp)
      simp only [selectNonzero, List.zip_cons_cons, List.filterMap_cons, ha, if_pos, ne_eq,
        not_false_eq_true, ite_true]
      exact congrArg (b :: ·) (ih bs (fun x hx => hs x (by simp [hx])) (by simpa using h))

theorem pyint_intCast (n : ℤ) : pyint (n : ℚ) = n := by
  unfold pyint
  split <;> simp

theorem pyint_clamp_eq_floor (q : ℚ) : pyint (max 1 (min 100 q)) = ⌊max 1 (min 100 q)⌋ := by
  have h1 : (0:ℚ) ≤ max 1 (min 100 q) := le_trans zero_le_one (le_max_left _ _)
  simp [pyint, h1]

theorem pyint_clamp_mono {p q : ℚ} (h : p ≤ q) :
    pyint (max 1 (min 100 p)) ≤ pyint (max 1 (min 100 q)) := by
  rw [pyint_clamp_eq_floor, pyint_clamp_eq_floor]
  exact Int.floor_mono (max_le_max le_rfl (min_le_min le_rfl h))

theorem pyint_mono {p q : ℚ} (h : p ≤ q) : pyint p ≤ pyint q := by
  unfold pyint
  split_ifs with hp hq hq'
  · exact Int.floor_mono h
  · exact absurd (le_trans hp h) hq
  · have h1 : ⌈p⌉ ≤ 0 := Int.ceil_le.2 (by exact_mod_cast le_of_lt (not_le.1 hp))
    have h2 : (0:ℤ) ≤ ⌊q⌋ := Int.floor_nonneg.2 hq'
    omega
  · exact Int.ceil_mono h

theorem pyint_clamp_bounds (q : ℚ) :
    1 ≤ pyint (max 1 (min 100 q)) ∧ pyint (max 1 (min 100 q)) ≤ 100 := by
  rw [pyint_clamp_eq_floor]
  constructor
  · exact Int.le_floor.2 (by exact_mod_cast le_max_left _ _)
  · have h : max 1 (min 100 q) ≤ (100:ℚ) := max_le (by norm_num) (min_le_left _ _)
    calc ⌊max 1 (min 100 q)⌋ ≤ ⌊(100:ℚ)⌋ := Int.floor_mono h
    _ = 100 := by norm_num

theorem pyint_clamp_of_mem {q : ℚ} (h1 : 1 ≤ q) (h2 : q ≤ 100) :
    pyint (max 1 (min 100 q)) = ⌊q⌋ := by
  rw [min_eq_right h2, max_eq_right h1, pyint, if_pos (le_trans zero_le_one h1)]

/-! ### Evaluation of `get_jpeg_quality_from_qtable` on each control path -/

theorem get_png (qt : List (Nat × List ℤ)) :
    get_jpeg_quality_from_qtable (.decoded .png qt) = 98 := rfl

theorem get_other_fmt (qt : List (Nat × List ℤ)) :
    get_jpeg_quality_from_qtable (.decoded .other qt) = 50 := rfl

theorem get_jpeg_no_tables :
    get_jpeg_quality_from_qtable (.decoded .jpeg []) = 50 := rfl

theorem get_jpeg_no_table0 (qt : List (Nat × List ℤ)) (hq : qt ≠ [])
    (hlk : lookupTable 0 qt = none) :
    get_jpeg_quality_from_qtable (.decoded .jpeg qt) = 30 := by
  simp [get_jpeg_quality_from_qtable, hq, hlk]

theorem get_jpeg_some (qt : List (Nat × List ℤ)) (t : List ℤ) (hq : qt ≠ [])
    (hlk : lookupTable 0 qt = some t) :
    get_jpeg_quality_from_qtable (.decoded .jpeg qt) =
      if t.length ≠ 64 then
        if t.length = 0 then 25
        else max 1 (min 100 (pyint (110 - listMean t / (3 / 2))))
      else pyint (max 1 (min 100
        (qualityFromAvg (listMean (selectNonzero STANDARD_LUMINANCE_TABLE t))))) := by
  simp [get_jpeg_quality_from_qtable, hq, hlk, stdTable_not_all_zero, stdTable_length]

theorem get_std_path (t : List ℤ) (h : t.length = 64) :
    get_jpeg_quality_from_qtable (.decoded .jpeg [(0, t)]) =
      pyint (max 1 (min 100 (qualityFromAvg (listMean t)))) := by
  have hsel : selectNonzero STANDARD_LUMINANCE_TABLE t = t :=
    selectNonzero_id _ _ stdTable_nonzero (by rw [stdTable_length, h])
  simp [get_jpeg_quality_from_qtable, lookupTable, stdTable_not_all_zero, stdTable_length, h, hsel]

theorem get_mismatch_path (t : List ℤ) (h64 : t.length ≠ 64) (h0 : t.length ≠ 0) :
    get_jpeg_quality_from_qtable (.decoded .jpeg [(0, t)]) =
      max 1 (min 100 (pyint (110 - listMean t / (3 / 2)))) := by
  simp [get_jpeg_quality_from_qtable, lookupTable, stdTable_not_all_zero, stdTable_length, h64, h0]

/-! ### Monotonicity machinery for the five-segment curve -/

theorem qualityFromAvg_anti {x y : ℚ} (hxy : x ≤ y) (hside : y ≤ 10 ∨ 10 < x) :
    qualityFromAvg y ≤ qualityFromAvg x := by
  rcases hside with h | h <;>
    (unfold qualityFromAvg seg1 seg2 seg3 seg4 seg5; split_ifs <;> linarith)

theorem listMean_mono {A B : List ℤ} (h : List.Forall₂ (· ≤ ·) A B) :
    listMean A ≤ listMean B := by
  have hlen : A.length = B.length := List.Forall₂.length_eq h
  have hsum : A.sum ≤ B.sum := List.Forall₂.sum_le_sum h
  unfold listMean
  rw [hlen]
  rcases Nat.eq_zero_or_pos B.length with h0 | hpos
  · simp [h0]
  · have hposQ : (0:ℚ) < (B.length : ℚ) := by exact_mod_cast hpos
    have hsumQ : (A.sum : ℚ) ≤ (B.sum : ℚ) := by exact_mod_cast hsum
    gcongr

/-! ### Claims -/

/-- C1, counterexample: for an input that cannot be decoded as any image
container, `get_jpeg_quality_from_qtable` does not raise — the
`UnidentifiedImageError` handler returns the numeric quality 20, which lies
in the output range [1,100].  This refutes "it never silently returns a
numeric quality for such input". -/
theorem C1_counterexample :
    get_jpeg_quality_from_qtable .unreadable = 20 ∧ (1:ℤ) ≤ 20 ∧ (20:ℤ) ≤ 100 :=
  ⟨rfl, by norm_num, by norm_num⟩

/-- C1, amended: for every input that cannot be decoded as a recognized
image container, the estimator catches the decode error internally and
returns the fixed numeric fallback 20; it never raises to the caller. -/
theorem C1_unreadable_returns_20 :
    get_jpeg_quality_from_qtable .unreadable = 20 := rfl

/-- C2, counterexample: A = 64 copies of 10 and B = 63 copies of 10 plus a
42 satisfy A ≤ B entrywise with equal size, but the quality for A is 86
while the quality for B is 89, so quality(A) ≥ quality(B) fails.  The jump
comes from the curve's discontinuity at avgQ = 10 (segment one gives 86 at
10, segment two starts near 90 just above 10). -/
theorem C2_counterexample :
    List.Forall₂ (· ≤ ·) (List.replicate 64 (10:ℤ)) (List.replicate 63 (10:ℤ) ++ [42]) ∧
    (List.replicate 64 (10:ℤ)).length = (List.replicate 63 (10:ℤ) ++ [42]).length ∧
    get_jpeg_quality_from_qtable (.decoded .jpeg [(0, List.replicate 64 10)]) <
      get_jpeg_quality_from_qtable (.decoded .jpeg [(0, List.replicate 63 10 ++ [42])]) := by
  refine ⟨by decide, by decide, ?_⟩
  have hA : get_jpeg_quality_from_qtable (.decoded .jpeg [(0, List.replicate 64 10)]) = 86 := by
    rw [get_std_path _ (by decide)]
    rw [show listMean (List.replicate 64 (10:ℤ)) = 10 by norm_num [listMean, List.sum_replicate]]
    rw [show qualityFromAvg 10 = 86 by norm_num [qualityFromAvg, seg1]]
    rw [pyint_clamp_of_mem (by norm_num) (by norm_num)]
    exact Int.floor_eq_iff.2 (by norm_num)
  have hB : get_jpeg_quality_from_qtable
      (.decoded .jpeg [(0, List.replicate 63 10 ++ [42])]) = 89 := by
    rw [get_std_path _ (by decide)]
    rw [show listMean (List.replicate 63 (10:ℤ) ++ [42]) = 21/2 by
      norm_num [listMean, List.sum_replicate]]
    rw [show qualityFromAvg (21/2) = 357/4 by norm_num [qualityFromAvg, seg1, seg2]]
    rw [pyint_clamp_of_mem (by norm_num) (by norm_num)]
    exact Int.floor_eq_iff.2 (by norm_num)
  rw [hA, hB]
  norm_num

/-- C2, amended: for two luminance tables of equal size with A ≤ B
entrywise, the quality for A is at least the quality for B, except across
the avgQ = 10 breakpoint of the 64-entry standard path: only when the
tables have exactly 64 entries is the side condition needed that the mean
of B is at most 10 or the mean of A exceeds 10.  For every other equal
size the original monotonicity holds unconditionally (the size-mismatch
fallback is antitone in the mean, and two empty tables both yield 25). -/
theorem C2_monotone_equal_size (A B : List ℤ)
    (hle : List.Forall₂ (· ≤ ·) A B)
    (hside : A.length = 64 → (listMean B ≤ 10 ∨ 10 < listMean A)) :
    get_jpeg_quality_from_qtable (.decoded .jpeg [(0, B)]) ≤
      get_jpeg_quality_from_qtable (.decoded .jpeg [(0, A)]) := by
  have hBA : B.length = A.length := (List.Forall₂.length_eq hle).symm
  rcases eq_or_ne A.length 64 with h64 | h64
  · rw [get_std_path _ h64, get_std_path _ (hBA.trans h64)]
    exact pyint_clamp_mono (qualityFromAvg_anti (listMean_mono hle) (hside h64))
  · rcases eq_or_ne A.length 0 with h0 | h0
    · rw [List.length_eq_zero.1 h0, List.length_eq_zero.1 (hBA.trans h0)]
    · have hB64 : B.length ≠ 64 := by rw [hBA]; exact h64
      have hB0 : B.length ≠ 0 := by rw [hBA]; exact h0
      rw [get_mismatch_path A h64 h0, get_mismatch_path B hB64 hB0]
      have hm : listMean A ≤ listMean B := listMean_mono hle
      have hv : (110:ℚ) - listMean B / (3 / 2) ≤ 110 - listMean A / (3 / 2) := by linarith
      exact max_le_max le_rfl (min_le_min le_rfl (pyint_mono hv))

/-- Witness for `C2_monotone_equal_size` at A = B = 64 copies of 16. -/
theorem C2_monotone_equal_size_witness :
    (10:ℚ) < listMean (List.replicate 64 (16:ℤ)) ∧
    get_jpeg_quality_from_qtable (.decoded .jpeg [(0, List.replicate 64 16)]) ≤
      get_jpeg_quality_from_qtable (.decoded .jpeg [(0, List.replicate 64 16)]) :=
  ⟨by norm_num [listMean, List.sum_replicate],
   C2_monotone_equal_size _ _ (by decide)
     (fun _ => Or.inr (by norm_num [listMean, List.sum_replicate]))⟩

/-- C3, counterexample: for the 64-entry table of all 52s, avgQ = 52 and the
raw curve value is 45 − 2·0.6 = 43.8.  The code truncates with `int()` and
returns 43, while the claim's "rounded to an integer" map gives 44. -/
theorem C3_counterexample :
    get_jpeg_quality_from_qtable (.decoded .jpeg [(0, List.replicate 64 52)]) = 43 ∧
    roundedPiecewiseMap (listMean (List.replicate 64 52)) = 44 := by
  constructor
  · rw [get_std_path _ (by decide)]
    rw [show listMean (List.replicate 64 (52:ℤ)) = 52 by norm_num [listMean, List.sum_replicate]]
    rw [show qualityFromAvg 52 = 219/5 by norm_num [qualityFromAvg, seg1, seg2, seg3, seg4]]
    rw [pyint_clamp_of_mem (by norm_num) (by norm_num)]
    exact Int.floor_eq_iff.2 (by norm_num)
  · rw [show listMean (List.replicate 64 (52:ℤ)) = 52 by norm_num [listMean, List.sum_replicate]]
    rw [roundedPiecewiseMap]
    rw [show qualityFromAvg 52 = 219/5 by norm_num [qualityFromAvg, seg1, seg2, seg3, seg4]]
    rw [round_eq, show (219:ℚ)/5 + 1/2 = 443/10 by norm_num]
    rw [show ⌊(443:ℚ)/10⌋ = 44 from Int.floor_eq_iff.2 (by norm_num)]
    norm_num

/-- C3, amended: for every JPEG whose extracted luminance table has exactly
64 entries, the returned quality is the five-segment piecewise-linear map of
avgQ (the mean of the entries at positions where the reference table is
nonzero), clamped to [1,100] and truncated to an integer by Python's
`int()` (truncation, not rounding). -/
theorem C3_truncated_piecewise (t : List ℤ) (h : t.length = 64) :
    get_jpeg_quality_from_qtable (.decoded .jpeg [(0, t)]) =
      truncatedPiecewiseMap (listMean t) := by
  rw [get_std_path t h]
  rfl

/-- Witness for `C3_truncated_piecewise` at the table of 64 ones. -/
theorem C3_truncated_piecewise_witness :
    (List.replicate 64 (1:ℤ)).length = 64 ∧
    get_jpeg_quality_from_qtable (.decoded .jpeg [(0, List.replicate 64 1)]) =
      truncatedPiecewiseMap (listMean (List.replicate 64 1)) :=
  ⟨by decide, C3_truncated_piecewise _ (by decide)⟩

/-- C4, counterexample: for the 32-entry table of all 20s the mean is 20 and
110 − 20/1.5 = 96.66….  The code computes `int(...)` first and returns 96,
while the claim's `clamp(round(...), 1, 100)` gives 97. -/
theorem C4_counterexample :
    get_jpeg_quality_from_qtable (.decoded .jpeg [(0, List.replicate 32 20)]) = 96 ∧
    roundedFallbackMap (listMean (List.replicate 32 20)) = 97 := by
  constructor
  · rw [get_mismatch_path _ (by decide) (by decide)]
    rw [show listMean (List.replicate 32 (20:ℤ)) = 20 by norm_num [listMean, List.sum_replicate]]
    rw [show (110:ℚ) - 20 / (3/2) = 290/3 by norm_num]
    rw [show pyint ((290:ℚ)/3) = 96 by
      rw [pyint, if_pos (by norm_num)]; exact Int.floor_eq_iff.2 (by norm_num)]
    norm_num
  · rw [show listMean (List.replicate 32 (20:ℤ)) = 20 by norm_num [listMean, List.sum_replicate]]
    rw [roundedFallbackMap]
    rw [show (110:ℚ) - 20 / (3/2) = 290/3 by norm_num]
    rw [round_eq, show (290:ℚ)/3 + 1/2 = 583/6 by norm_num]
    rw [show ⌊(583:ℚ)/6⌋ = 97 from Int.floor_eq_iff.2 (by norm_num)]
    norm_num

/-- C4, amended: for every JPEG whose extracted luminance table has a
nonzero entry count different from 64, the returned quality equals
clamp(trunc(110 − mean/1.5), 1, 100), where trunc is Python's `int()`
truncation toward zero (an empty table instead returns 25 through the
internal NaN-to-`int` failure path). -/
theorem C4_truncated_fallback (t : List ℤ) (h64 : t.length ≠ 64) (h0 : t.length ≠ 0) :
    get_jpeg_quality_from_qtable (.decoded .jpeg [(0, t)]) =
      max 1 (min 100 (pyint (110 - listMean t / (3 / 2)))) :=
  get_mismatch_path t h64 h0

/-- Witness for `C4_truncated_fallback` at the 32-entry table of all 20s. -/
theorem C4_truncated_fallback_witness :
    (List.replicate 32 (20:ℤ)).length ≠ 64 ∧
    get_jpeg_quality_from_qtable (.decoded .jpeg [(0, List.replicate 32 20)]) =
      max 1 (min 100 (pyint (110 - listMean (List.replicate 32 20) / (3 / 2)))) :=
  ⟨by decide, C4_truncated_fallback _ (by decide) (by decide)⟩

/-- C5: on every input on which the estimator returns — and in this
embedding it returns on every input, because the whole body runs inside
`try` and each handler returns a number, so recoverable conditions never
raise to the caller — the returned quality is an integer in [1,100]. -/
theorem C5_output_range (inp : EstimatorInput) :
    1 ≤ get_jpeg_quality_from_qtable inp ∧ get_jpeg_quality_from_qtable inp ≤ 100 := by
  cases inp with
  | invalidType => exact ⟨by norm_num [get_jpeg_quality_from_qtable],
      by norm_num [get_jpeg_quality_from_qtable]⟩
  | unreadable => exact ⟨by norm_num [get_jpeg_quality_from_qtable],
      by norm_num [get_jpeg_quality_from_qtable]⟩
  | decoded fmt qt =>
    cases fmt with
    | png => rw [get_png]; norm_num
    | other => rw [get_other_fmt]; norm_num
    | jpeg =>
      rcases eq_or_ne qt [] with hq | hq
      · rw [hq, get_jpeg_no_tables]; norm_num
      · cases hlk : lookupTable 0 qt with
        | none => rw [get_jpeg_no_table0 qt hq hlk]; norm_num
        | some t =>
          rw [get_jpeg_some qt t hq hlk]
          split_ifs with h64 h0
          · norm_num
          · constructor
            · exact le_max_left _ _
            · exact max_le (by norm_num) (min_le_left _ _)
          · exact pyint_clamp_bounds _

/-- C6, counterexample: at the breakpoint avgQ = 10 the two adjacent segment
formulas do not agree up to rounding: the first gives 86, the second gives
90, a difference of 4. -/
theorem C6_counterexample :
    seg1 10 = 86 ∧ seg2 10 = 90 ∧ seg2 10 - seg1 10 = 4 := by
  norm_num [seg1, seg2]

/-- C6, amended: at the breakpoints 20, 50 and 100 the adjacent segment
formulas of the quality map agree exactly; only at the breakpoint 10 do
they differ (by 4, beyond rounding). -/
theorem C6_breakpoints_20_50_100 :
    seg2 20 = seg3 20 ∧ seg3 50 = seg4 50 ∧ seg4 100 = seg5 100 := by
  norm_num [seg2, seg3, seg4, seg5]

/-- C7, counterexample: a JPEG whose quantization dictionary is non-empty
but has no luminance (index 0) table returns 30, not 50: the dead `is None`
check never fires, and the `np.mean` over the numpy-wrapped `None` raises a
`TypeError` that the generic handler converts to 30. -/
theorem C7_counterexample :
    get_jpeg_quality_from_qtable (.decoded .jpeg [(1, List.replicate 64 16)]) = 30 ∧
    (30:ℤ) ≠ 50 :=
  ⟨get_jpeg_no_table0 _ (by simp) rfl, by norm_num⟩

/-- C7, amended: a JPEG that parses but whose quantization-table dictionary
is empty returns the fixed fallback 50 without raising; when the dictionary
is non-empty but lacks the index-0 table, the estimator instead returns 30
through an internal error path. -/
theorem C7_no_tables_returns_50 :
    get_jpeg_quality_from_qtable (.decoded .jpeg []) = 50 := rfl

/-- C8: the classifier is a pure total function agreeing everywhere with the
claim's interval scheme: "High Quality" iff score ≥ 90, "Medium Quality" iff
80 ≤ score < 90, "Low Quality" iff 70 ≤ score < 80, "Very Low Quality"
otherwise. -/
theorem C8_classifier_intervals (score : ℤ) :
    classify_quality score = classifyByIntervals score := by
  unfold classify_quality classifyByIntervals
  split_ifs <;> first | rfl | omega

/-- C9: every decoded non-JPEG input gets a fixed quality: 98 for PNG
(classified "High Quality") and 50 for any other non-JPEG format,
independently of whatever table data is present. -/
theorem C9_png_and_other_fallback (qtables : List (Nat × List ℤ)) :
    get_jpeg_quality_from_qtable (.decoded .png qtables) = 98 ∧
    classify_quality (get_jpeg_quality_from_qtable (.decoded .png qtables)) = "High Quality" ∧
    get_jpeg_quality_from_qtable (.decoded .other qtables) = 50 :=
  ⟨rfl, rfl, rfl⟩

/-- C10: an input value that is neither a str path nor a bytes buffer makes
the code raise `ValueError` internally, which the same function catches and
converts to the returned quality 25; no error propagates. -/
theorem C10_invalid_type_returns_25 :
    get_jpeg_quality_from_qtable .invalidType = 25 := rfl
